import Mathlib

/-!
A shallow embedding of `src/monitor.py`, a dividend-index monitoring script:
it fetches index constituents (three fallback providers), pulls daily price
history per stock, computes a 250-sample rolling average of the close, tests
whether the latest close sits within a fixed band below that average, and
pushes notifications through a messaging relay.

Numeric values (Python floats) are modelled as rationals; external calls
(data providers, the HTTP relay, the on-disk cache) are modelled as explicit
inputs; the side effects of `main` are modelled as an event trace.
-/

/-- The per-stock record produced by `get_stock_data_with_cache`
(`src/monitor.py` lines 205-212). -/
structure StockData where
  code : String
  name : String
  close : ℚ
  ma250 : ℚ
  date : String
  data_points : ℕ
deriving DecidableEq, Repr

/-- The record returned by `check_stock_condition` on a match: a copy of the
stock record with `deviation` and `deviation_percent` added
(`src/monitor.py` lines 242-245). -/
structure MatchResult where
  code : String
  name : String
  close : ℚ
  ma250 : ℚ
  date : String
  data_points : ℕ
  deviation : ℚ
  deviation_percent : ℚ
deriving DecidableEq, Repr

/-- Embedding of `check_stock_condition` (`src/monitor.py` lines 226-247):
`None` when the
record is absent or `ma250 <= 0`; otherwise the deviation
`(ma250 - close) / ma250` is computed and a match is returned exactly when
`0 < deviation <= threshold`.  The Python default `threshold=0.06` is the
default argument `6/100`. -/
def check_stock_condition (stock_data : Option StockData)
    (threshold : ℚ := 6/100) : Option MatchResult :=
  match stock_data with
  | none => none
  | some sd =>
    if sd.ma250 ≤ 0 then none
    else
      let deviation := (sd.ma250 - sd.close) / sd.ma250
      if 0 < deviation ∧ deviation ≤ threshold then
        some { code := sd.code, name := sd.name, close := sd.close,
               ma250 := sd.ma250, date := sd.date,
               data_points := sd.data_points, deviation := deviation,
               deviation_percent := deviation * 100 }
      else none

/-- One row of the daily price DataFrame returned by `ak.stock_zh_a_hist`:
the date column and the closing-price column (the only fields the script
reads). -/
structure Row where
  date : String
  close : ℚ
deriving DecidableEq, Repr

/-- The symbol munging of `get_stock_data_with_cache`
(`src/monitor.py` lines 173-178): codes starting with 6 get `.SH`, codes
starting with 0 or 3 get `.SZ`. -/
def toSymbol (stock_code : String) : String :=
  if stock_code.startsWith "6" then stock_code ++ ".SH"
  else if stock_code.startsWith "0" || stock_code.startsWith "3" then
    stock_code ++ ".SZ"
  else stock_code

/-- Embedding of the pandas rolling mean over the close column with
window `w` and min_periods 1
(`src/monitor.py` line 201): at position `i` the mean of the closes in the
window `[i+1-w, i]`, clipped at the start of the series (Nat subtraction
models `min_periods=1`). -/
def rollingMean (w : ℕ) (closes : List ℚ) : List ℚ :=
  (List.range closes.length).map fun i =>
    let windowVals := (closes.take (i + 1)).drop (i + 1 - w)
    windowVals.sum / windowVals.length

/-- Embedding of `get_stock_data_with_cache` (`src/monitor.py` lines
163-221).  The cache lookup result and the daily history of the provider
(indexed by munged symbol,
`.error` = the call raised) are explicit inputs; a fresh cache-miss fetch
returns `None` on an empty or short series, and otherwise packages the
latest row with the last value of the 250-sample rolling average. -/
def get_stock_data_with_cache (stock_code stock_name : String)
    (cached : Option StockData) (hist : String → Except Unit (List Row)) :
    Option StockData :=
  match cached with
  | some d => some d
  | none =>
    match hist (toSymbol stock_code) with
    | .error _ => none
    | .ok df =>
      if df.isEmpty then none
      else if df.length < 250 then none
      else
        let closes := df.map (·.close)
        match (rollingMean 250 closes).getLast?, df.getLast? with
        | some m, some latest =>
          some { code := stock_code, name := stock_name,
                 close := latest.close, ma250 := m, date := latest.date,
                 data_points := df.length }
        | _, _ => none

/-- The `n` most recent entries of a list (spec-side vocabulary for "the 250
most recent closing prices"). -/
def lastWindow (xs : List ℚ) (n : ℕ) : List ℚ :=
  xs.drop (xs.length - n)

/-- A concrete 250-row price series (all closes equal to 1). -/
def dfW : List Row := List.replicate 250 ⟨"2026-01-01", 1⟩

/-- A concrete provider that always answers with `dfW`. -/
def histW : String → Except Unit (List Row) := fun _ => .ok dfW

/-- A hit as accumulated by `process_stocks_batch`: the match record after
the index name is attached to it (`src/monitor.py` lines 277-279). -/
structure Hit where
  res : MatchResult
  index : String
deriving DecidableEq, Repr

/-- The futures list built by the submission loop of `process_stocks_batch`
(`src/monitor.py` lines 263-268): one `(future, stock_code, stock_name)`
triple per input pair, the future holding the fetch result. -/
def batch_futures (fetch : String → String → Option StockData)
    (stocks_list : List (String × String)) :
    List (Option StockData × String × String) :=
  stocks_list.map fun p => (fetch p.1 p.2, p.1, p.2)

/-- Embedding of `process_stocks_batch` (`src/monitor.py` lines 252-296):
submit one fetch
per pair, then for each future in submission order keep the stocks whose
data exists and passes `check_stock_condition`, tagging each with the index
name.  (`check_stock_condition` already maps an absent record to `None`, so
the `if stock_data:` guard is absorbed into the composition.) -/
def process_stocks_batch (fetch : String → String → Option StockData)
    (stocks_list : List (String × String)) (index_name : String)
    (threshold : ℚ := 6/100) : List Hit :=
  (batch_futures fetch stocks_list).filterMap fun fut =>
    (check_stock_condition fut.1 threshold).map fun r =>
      { res := r, index := index_name }

/-- A concrete fetch function: code 600000 has cached-style data, everything
else fails. -/
def fetchW : String → String → Option StockData := fun code _ =>
  if code = "600000" then some ⟨"600000", "x", 97, 100, "2026-01-01", 250⟩
  else none

/-- An abstract pandas DataFrame as the constituent providers return it:
column names and rows of string cells. -/
structure Df where
  cols : List String
  rows : List (List String)
deriving DecidableEq, Repr

/-- Embedding of the pandas empty test: a DataFrame is empty when either
axis has length zero. -/
def Df.isEmpty (df : Df) : Bool :=
  df.rows.isEmpty || df.cols.isEmpty

/-- The cell of a row under a column name, with an empty-string default
(used only under an in-columns guard, so the default is never the
observable value). -/
def cellAt (cols : List String) (row : List String) (c : String) : String :=
  match cols.indexOf? c with
  | some i => row.getD i ""
  | none => ""

/-- Parsing of method 1, `ak.index_stock_cons`
(`src/monitor.py` lines 112-122): prefer the `品种代码`/`品种名称` columns,
else fall back to the first two positional columns. -/
def parse_m1 (df : Df) : List (String × String) :=
  if "品种代码" ∈ df.cols then
    df.rows.map fun row =>
      (cellAt df.cols row "品种代码",
       if "品种名称" ∈ df.cols then cellAt df.cols row "品种名称" else "")
  else
    df.rows.map fun row =>
      (row.getD 0 "", if 1 < row.length then row.getD 1 "" else "")

/-- Parsing of method 2, `ak.index_stock_cons_sina`
(`src/monitor.py` lines 133-137): rows are read only when a `code` column
exists; otherwise nothing is appended (and the empty list is still
returned). -/
def parse_m2 (df : Df) : List (String × String) :=
  if "code" ∈ df.cols then
    df.rows.map fun row =>
      (cellAt df.cols row "code",
       if "name" ∈ df.cols then cellAt df.cols row "name" else "")
  else []

/-- Parsing of method 3, `ak.index_stock_cons_csindex`
(`src/monitor.py` lines 148-151): unguarded access to `成分券代码`
(missing column raises, handled by the except clause of the caller). -/
def parse_m3 (df : Df) : List (String × String) :=
  df.rows.map fun row =>
    (cellAt df.cols row "成分券代码",
     if "成分券名称" ∈ df.cols then cellAt df.cols row "成分券名称" else "")

/-- Method 3 and the final fallthrough of `get_all_index_stocks`
(`src/monitor.py` lines 143-158): the csindex provider is consulted only for
index code 000922; a raised call, an empty frame, or a missing `成分券代码`
column (a `KeyError` swallowed by the `except`) falls through to
`return []`. -/
def method3_result (index_code : String) (m3 : Except Unit Df) :
    List (String × String) :=
  if index_code = "000922" then
    match m3 with
    | .ok df =>
      if df.isEmpty then []
      else if "成分券代码" ∈ df.cols then parse_m3 df else []
    | .error _ => []
  else []

/-- Method 2 and its fallthrough (`src/monitor.py` lines 129-141). -/
def method2_then (index_code : String) (m2 m3 : Except Unit Df) :
    List (String × String) :=
  match m2 with
  | .ok df =>
    if df.isEmpty then method3_result index_code m3 else parse_m2 df
  | .error _ => method3_result index_code m3

/-- Embedding of `get_all_index_stocks` (`src/monitor.py` lines 102-158)
with the three
provider calls (`.error` = the call raised) as explicit inputs. -/
def get_all_index_stocks (index_code : String) (m1 m2 m3 : Except Unit Df) :
    List (String × String) :=
  match m1 with
  | .ok df =>
    if df.isEmpty then method2_then index_code m2 m3 else parse_m1 df
  | .error _ => method2_then index_code m2 m3

/-- A provider method "yields" a frame when its call returns without raising
and the frame is non-empty. -/
def methodYields (m : Except Unit Df) : Option Df :=
  match m with
  | .ok df => if df.isEmpty then none else some df
  | .error _ => none

/-- The form payload posted to the Server酱 relay
(`src/monitor.py` lines 73-78). -/
structure PostData where
  title : String
  desp : String
  channel : String
  desp_type : String
deriving DecidableEq, Repr

/-- The HTTP response of the relay: status code and the code field of the
JSON
body (`none` = missing or unreadable). -/
structure HttpResp where
  status : ℕ
  jsonCode : Option ℤ
deriving DecidableEq, Repr

/-- Embedding of `send_wechat` (`src/monitor.py` lines 66-97) with the HTTP
exchange as an explicit input (`none` = the request raised).  Returns the
payload that was posted (if any) and the boolean result of the function;
the posted title is the 32-character prefix of the given title. -/
def send_wechat (key title content : String) (resp : Option HttpResp) :
    Option PostData × Bool :=
  if key = "" then (none, false)
  else
    let data : PostData :=
      { title := title.take 32, desp := content, channel := "wechat",
        desp_type := "markdown" }
    match resp with
    | none => (some data, false)
    | some r =>
      if r.status = 200 then
        if r.jsonCode = some 0 then (some data, true) else (some data, false)
      else (some data, false)

/-- The two-decimal fixed-point formatting of Python on the embedded
rationals. -/
def fmt2 (q : ℚ) : String :=
  let m : ℤ := round (q * 100)
  let sign := if m < 0 then "-" else ""
  let a := m.natAbs
  sign ++ toString (a / 100) ++ "." ++
    (if a % 100 < 10 then "0" else "") ++ toString (a % 100)

/-- The one-decimal fixed-point formatting of Python on the embedded
rationals. -/
def fmt1 (q : ℚ) : String :=
  let m : ℤ := round (q * 10)
  let sign := if m < 0 then "-" else ""
  let a := m.natAbs
  sign ++ toString (a / 10) ++ "." ++ toString (a % 10)

/-- The Python builtin max of a list (lists here are non-empty when
consulted). -/
def listMax : List ℚ → ℚ
  | [] => 0
  | x :: xs => xs.foldl max x

/-- The Python builtin min of a list. -/
def listMin : List ℚ → ℚ
  | [] => 0
  | x :: xs => xs.foldl min x

/-- Stable descending insertion (one step of
`sort(key=deviation_percent, reverse=True)`). -/
def insertHitDesc (x : Hit) : List Hit → List Hit
  | [] => [x]
  | y :: ys =>
    if x.res.deviation_percent ≤ y.res.deviation_percent then
      y :: insertHitDesc x ys
    else x :: y :: ys

/-- The stable in-place sort by deviation_percent in reverse order
(`src/monitor.py` line 325) and the corresponding sorted builtin call
(line 459). -/
def sortByDeviationDesc (l : List Hit) : List Hit :=
  l.foldl (fun acc x => insertHitDesc x acc) []

/-- The insertion-ordered group keys of `index_groups`
(`src/monitor.py` lines 316-321, a Python dict preserves insertion
order). -/
def groupKeys (hits : List Hit) : List String :=
  hits.foldl (fun ks h => if h.index ∈ ks then ks else ks ++ [h.index]) []

/-- The hits of one index group, in arrival order. -/
def groupOf (hits : List Hit) (idx : String) : List Hit :=
  hits.filter fun h => h.index == idx

/-- One table row of the detail list (`src/monitor.py` lines 335-346),
including the deviation emoji. -/
def stockRowLine (s : Hit) : String :=
  let d := s.res.deviation_percent
  let emoji := if 5 < d then "🔴" else if 3 < d then "🟡" else "🟢"
  "| " ++ s.res.code ++ " | " ++ s.res.name ++ " | ¥" ++ fmt2 s.res.close ++
    " | ¥" ++ fmt2 s.res.ma250 ++ " | " ++ emoji ++ " " ++ fmt2 d ++ "% |\n"

/-- One per-index section of the detail list
(`src/monitor.py` lines 328-351): header, table head, at most 20 rows, an
overflow row. -/
def groupSection (idx_name : String) (stocks : List Hit) : String :=
  "### 📊 " ++ idx_name ++ " (" ++ toString stocks.length ++ "只)\n\n" ++
  "| 股票代码 | 股票名称 | 收盘价 | 年线价 | 偏离度 |\n" ++
  "|:---:|:---:|:---:|:---:|:---:|\n" ++
  String.join ((stocks.take 20).map stockRowLine) ++
  (if 20 < stocks.length then
    "| ... | 还有" ++ toString (stocks.length - 20) ++ "只 | ... | ... | ... |\n"
  else "") ++
  "\n"

/-- The `len(hits)/max(total_checked,1)*100` percentage used for the hit
rate (`src/monitor.py` lines 362 and 428). -/
def hitRatePercent (hits_len total : ℕ) : ℚ :=
  (hits_len : ℚ) / (max total 1 : ℕ) * 100

/-- The statistics block (`src/monitor.py` lines 353-362), emitted only for
more than one hit. -/
def statsSection (hits : List Hit) (total_checked : ℕ) : String :=
  if 1 < hits.length then
    let deviations := hits.map fun h => h.res.deviation_percent
    "### 📈 统计摘要\n\n" ++
    "- **平均偏离度**: " ++ fmt2 (deviations.sum / deviations.length) ++ "%\n" ++
    "- **最大偏离度**: " ++ fmt2 (listMax deviations) ++ "%\n" ++
    "- **最小偏离度**: " ++ fmt2 (listMin deviations) ++ "%\n" ++
    "- **触发比例**: " ++ fmt1 (hitRatePercent hits.length total_checked) ++
      "%\n\n"
  else ""

/-- The alert title (`src/monitor.py` line 306). -/
def notif_title (hits : List Hit) : String :=
  "📉 红利指数年线预警 (" ++ toString hits.length ++ "只)"

/-- The alert Markdown body (`src/monitor.py` lines 308-369). -/
def notif_content (now : String) (hits : List Hit) (total_checked : ℕ) :
    String :=
  "## 红利指数年线预警\n\n" ++
  "**分析时间**: " ++ now ++ "\n" ++
  "**监控指数**: 中证红利、上证红利、深证红利\n" ++
  "**预警条件**: 股价低于年线6%以内\n" ++
  "**检查总数**: " ++ toString total_checked ++ "只\n" ++
  "**发现数量**: " ++ toString hits.length ++ "只股票\n\n" ++
  String.join ((groupKeys hits).map fun idx =>
    groupSection idx (sortByDeviationDesc (groupOf hits idx))) ++
  statsSection hits total_checked ++
  "---\n" ++
  "💡 **投资提示**:\n" ++
  "- 股价接近年线可能是技术性买入机会\n" ++
  "- 但需结合基本面、行业趋势等多方面分析\n" ++
  "- 投资有风险，决策需谨慎\n\n" ++
  "⏰ **推送时间**: " ++ now

/-- Embedding of `generate_notification_content` (`src/monitor.py` lines
301-371):
`(None, None)` — here `none` — without hits, otherwise the alert title and
Markdown body. -/
def generate_notification_content (now : String) (hits : List Hit)
    (total_checked : ℕ) : Option (String × String) :=
  if hits.isEmpty then none
  else some (notif_title hits, notif_content now hits total_checked)

/-- The follow-up summary message body (`src/monitor.py` lines 448-466). -/
def summary_content (now : String) (all_hits : List Hit) (total : ℕ) :
    String :=
  "## 📊 红利指数监控汇总\n\n" ++
  "**完成时间**: " ++ now ++ "\n\n" ++
  "✅ **全量检查完成**\n\n" ++
  "**检查统计**:\n" ++
  "- 📈 监控指数: 3个（中证/上证/深证红利）\n" ++
  "- 📊 检查股票: " ++ toString total ++ "只\n" ++
  "- 🔔 触发提醒: " ++ toString all_hits.length ++ "只\n" ++
  "- 📉 触发比例: " ++ fmt1 (hitRatePercent all_hits.length total) ++
    "%\n\n" ++
  (if 0 < all_hits.length then
    "**偏离度最大的5只股票**:\n" ++
    String.join (((sortByDeviationDesc all_hits).take 5).map fun hit =>
      "- " ++ hit.res.code ++ " " ++ hit.res.name ++ ": " ++
        fmt2 hit.res.deviation_percent ++ "%\n")
  else "") ++
  "\n---\n" ++
  "💡 详细列表请查看上一条消息\n" ++
  "⏰ 推送时间: " ++ now

/-- The "no alert" report body (`src/monitor.py` lines 475-489). -/
def no_alert_content (now today : String) (total : ℕ) : String :=
  "## 全量监控报告\n\n" ++
  "**完成时间**: " ++ now ++ "\n\n" ++
  "📈 **检查统计**:\n" ++
  "- 监控指数: 中证红利、上证红利、深证红利\n" ++
  "- 检查股票: " ++ toString total ++ "只\n" ++
  "- 符合条件: 0只\n\n" ++
  "💡 **市场情况**:\n" ++
  "当前没有股票价格低于年线6%以内\n\n" ++
  "**监控配置**:\n" ++
  "- 提醒阈值: 低于年线6%以内\n" ++
  "- 检查范围: 全部成分股\n" ++
  "- 数据时间: " ++ today ++ "\n\n" ++
  "---\n" ++
  "✅ 系统运行正常，将持续监控"

/-- The external world as `main` observes it: the three constituent
providers (per index code), the per-stock cache and price history, and the
wall-clock strings. -/
structure Env where
  m1 : String → Except Unit Df
  m2 : String → Except Unit Df
  m3 : String → Except Unit Df
  cached : String → Option StockData
  history : String → Except Unit (List Row)
  now : String
  today : String

/-- The fetch `process_stocks_batch` submits for one stock
(`src/monitor.py` lines 264-267). -/
def fetchStockData (env : Env) (code name : String) : Option StockData :=
  get_stock_data_with_cache code name (env.cached code) env.history

/-- The observable side effects of one run of `main`, in order. -/
inductive Event where
  | getCons (index_name : String)
  | fetchStock (index_name code : String)
  | writeResults
  | notify (title content : String)
deriving DecidableEq, Repr

/-- Embedding of `index_config` (`src/monitor.py` lines 384-388), in the
insertion order of the dict. -/
def index_config : List (String × String) :=
  [("中证红利", "000922"), ("上证红利", "000015"), ("深证红利", "399324")]

/-- One iteration of the index loop of `main` (`src/monitor.py` lines
394-419):
fetch the constituents, skip the index when none arrive (`continue`), else
fetch every stock and keep the hits at `threshold=0.06`; also yields the
count this iteration adds to `total_stocks_checked`. -/
def run_index (env : Env) (cfg : String × String) :
    List Event × List Hit × ℕ :=
  let stocks_list :=
    get_all_index_stocks cfg.2 (env.m1 cfg.2) (env.m2 cfg.2) (env.m3 cfg.2)
  if stocks_list.isEmpty then
    ([Event.getCons cfg.1], [], 0)
  else
    (Event.getCons cfg.1 ::
      stocks_list.map fun p => Event.fetchStock cfg.1 p.1,
     process_stocks_batch (fetchStockData env) stocks_list cfg.1 (6/100),
     stocks_list.length)

/-- The notification phase of `main` (`src/monitor.py` lines 442-489): with
hits, the generated alert followed by the summary message (guarded by
Python truthiness test on the generated title and content); without hits,
the single
"no alert" report. -/
def main_notifications (env : Env) (all_hits : List Hit) (total : ℕ) :
    List (String × String) :=
  if all_hits.isEmpty then
    [("📊 红利指数监控报告", no_alert_content env.now env.today total)]
  else
    match generate_notification_content env.now all_hits total with
    | some (t, c) =>
      if t = "" ∨ c = "" then []
      else [(t, c), ("📊 监控汇总报告", summary_content env.now all_hits total)]
    | none => []

/-- What one full run of `main` produces. -/
structure MainState where
  trace : List Event
  all_hits : List Hit
  total_stocks_checked : ℕ
  notifications : List (String × String)

/-- Embedding of `main` (`src/monitor.py` lines 376-491): the index loop in
`index_config` order, then the results file, then the notification phase;
`trace` records the side effects in program order. -/
def main_run (env : Env) : MainState :=
  let blocks := index_config.map (run_index env)
  let all_hits := (blocks.map fun b => b.2.1).flatten
  let total := (blocks.map fun b => b.2.2).sum
  let notifs := main_notifications env all_hits total
  { trace := (blocks.map fun b => b.1).flatten ++ [Event.writeResults] ++
      notifs.map fun p => Event.notify p.1 p.2,
    all_hits := all_hits,
    total_stocks_checked := total,
    notifications := notifs }

/-- A concrete environment in which every index resolves to the single
stock 600000 and its cached record sits 3% below the annual line. -/
def envHit : Env :=
  { m1 := fun _ => .ok ⟨["品种代码"], [["600000"]]⟩,
    m2 := fun _ => .error (),
    m3 := fun _ => .error (),
    cached := fun _ => some ⟨"600000", "x", 97, 100, "2026-01-01", 250⟩,
    history := fun _ => .error (),
    now := "2026-10-12 08:00:00",
    today := "2026-10-12" }

/-- The hit that `envHit` produces under the first monitored index. -/
def hW : Hit :=
  ⟨⟨"600000", "x", 97, 100, "2026-01-01", 250, 3/100, 3⟩, "中证红利"⟩

/-- A concrete environment in which every provider call raises, so no stock
is ever checked. -/
def envQuiet : Env :=
  { m1 := fun _ => .error (),
    m2 := fun _ => .error (),
    m3 := fun _ => .error (),
    cached := fun _ => none,
    history := fun _ => .error (),
    now := "2026-10-12 08:00:00",
    today := "2026-10-12" }

/-- Helper: everything a successful `check_stock_condition` guarantees about
its result. -/
theorem check_stock_condition_some {osd : Option StockData} {θ : ℚ}
    {r : MatchResult} (h : check_stock_condition osd θ = some r) :
    ∃ sd, osd = some sd ∧ 0 < sd.ma250 ∧
      r.deviation = (sd.ma250 - sd.close) / sd.ma250 ∧
      0 < r.deviation ∧ r.deviation ≤ θ ∧
      r.deviation_percent = r.deviation * 100 ∧
      r.code = sd.code ∧ r.name = sd.name ∧ r.close = sd.close ∧
      r.ma250 = sd.ma250 := by
  match osd with
  | none => simp [check_stock_condition] at h
  | some sd =>
    refine ⟨sd, rfl, ?_⟩
    simp only [check_stock_condition] at h
    split at h
    · exact absurd h (by simp)
    · rename_i hpos
      split at h
      · rename_i hband
        cases h
        exact ⟨lt_of_not_le hpos, rfl, hband.1, hband.2, rfl, rfl, rfl, rfl, rfl⟩
      · exact absurd h (by simp)

/-- C1: for a stock record with `ma250 > 0`, `check_stock_condition` returns a
match exactly when `0 < (ma250 - close)/ma250 ≤ threshold`; a close at or
above the average, or more than `threshold` below it, yields `None`; and a
match carries `deviation = (ma250 - close)/ma250` and
`deviation_percent = deviation * 100`. -/
theorem check_stock_condition_spec (sd : StockData) (θ : ℚ)
    (hma : 0 < sd.ma250) :
    ((∃ r, check_stock_condition (some sd) θ = some r) ↔
      (0 < (sd.ma250 - sd.close) / sd.ma250 ∧
        (sd.ma250 - sd.close) / sd.ma250 ≤ θ)) ∧
    ((sd.ma250 ≤ sd.close ∨ θ < (sd.ma250 - sd.close) / sd.ma250) →
      check_stock_condition (some sd) θ = none) ∧
    (∀ r, check_stock_condition (some sd) θ = some r →
      r.deviation = (sd.ma250 - sd.close) / sd.ma250 ∧
      r.deviation_percent = r.deviation * 100) := by
  have hcond : check_stock_condition (some sd) θ =
      if 0 < (sd.ma250 - sd.close) / sd.ma250 ∧
          (sd.ma250 - sd.close) / sd.ma250 ≤ θ then
        some { code := sd.code, name := sd.name, close := sd.close,
               ma250 := sd.ma250, date := sd.date,
               data_points := sd.data_points,
               deviation := (sd.ma250 - sd.close) / sd.ma250,
               deviation_percent := (sd.ma250 - sd.close) / sd.ma250 * 100 }
      else none := by
    simp [check_stock_condition, not_le.2 hma]
  refine ⟨?_, ?_, ?_⟩
  · constructor
    · rintro ⟨r, hr⟩
      rw [hcond] at hr
      by_contra hband
      rw [if_neg hband] at hr
      exact Option.noConfusion hr
    · intro hband
      exact ⟨_, by rw [hcond, if_pos hband]⟩
  · intro hnone
    rw [hcond, if_neg]
    rintro ⟨h1, h2⟩
    rcases hnone with hle | hgt
    · have : (sd.ma250 - sd.close) / sd.ma250 ≤ 0 :=
        div_nonpos_of_nonpos_of_nonneg (by linarith) (le_of_lt hma)
      linarith
    · linarith
  · intro r hr
    rw [hcond] at hr
    split at hr
    · cases hr; exact ⟨rfl, rfl⟩
    · exact absurd hr (by simp)

/-- Witness for C1 at a concrete record: close 97, annual line 100,
deviation 3%. -/
theorem check_stock_condition_spec_witness :
    (∃ r, check_stock_condition
        (some ⟨"600000", "x", 97, 100, "2026-01-01", 250⟩) (6/100) = some r) ↔
      (0 < ((100 : ℚ) - 97) / 100 ∧ ((100 : ℚ) - 97) / 100 ≤ 6/100) :=
  (check_stock_condition_spec ⟨"600000", "x", 97, 100, "2026-01-01", 250⟩
    (6/100) (by norm_num)).1

/-- C10: `check_stock_condition` returns `None` before the deviation is ever
computed whenever the record is absent or its `ma250` is not positive, so the
division by `ma250` happens only under `ma250 > 0`. -/
theorem check_stock_condition_no_div_by_zero (osd : Option StockData) (θ : ℚ)
    (h : osd = none ∨ ∃ sd, osd = some sd ∧ sd.ma250 ≤ 0) :
    check_stock_condition osd θ = none := by
  rcases h with h | ⟨sd, rfl, hle⟩
  · subst h; rfl
  · simp [check_stock_condition, hle]

/-- Witness for C10: a record with `ma250 = 0` is rejected. -/
theorem check_stock_condition_no_div_by_zero_witness :
    check_stock_condition (some ⟨"600000", "x", 97, 0, "2026-01-01", 250⟩)
      (6/100) = none :=
  check_stock_condition_no_div_by_zero _ (6/100)
    (Or.inr ⟨_, rfl, le_refl 0⟩)

/-- Helper: the last entry of a map over `List.range`. -/
theorem getLast?_map_range {α : Type} (n : ℕ) (f : ℕ → α) (h : 0 < n) :
    ((List.range n).map f).getLast? = some (f (n - 1)) := by
  rw [List.getLast?_eq_getElem?]
  have hlt : n - 1 < n := Nat.sub_lt h Nat.one_pos
  simp only [List.length_map, List.length_range, List.getElem?_map,
    List.getElem?_range hlt]
  rfl

/-- Helper: on a series of at least 250 closes, the last value of the
rolling average is the mean of the last 250 closes. -/
theorem rollingMean_getLast (closes : List ℚ) (h : 250 ≤ closes.length) :
    (rollingMean 250 closes).getLast? =
      some ((lastWindow closes 250).sum / 250) ∧
    (lastWindow closes 250).length = 250 := by
  have hn : 0 < closes.length := lt_of_lt_of_le (by norm_num) h
  have hlen : (lastWindow closes 250).length = 250 := by
    simp only [lastWindow, List.length_drop]
    omega
  constructor
  · rw [rollingMean, getLast?_map_range _ _ hn]
    have h1 : closes.length - 1 + 1 = closes.length := Nat.succ_pred_eq_of_pos hn
    have h2 : (closes.take (closes.length - 1 + 1)).drop
        (closes.length - 1 + 1 - 250) = lastWindow closes 250 := by
      rw [h1, List.take_length, lastWindow]
    simp only [h2, hlen]
    norm_num
  · exact hlen

/-- C2: on a cache miss whose fetch succeeds with series `df`,
`get_stock_data_with_cache` returns `None` when `df` has fewer than 250
rows; otherwise it returns a record whose `ma250` is the arithmetic mean of
the 250 most recent closes (the 250-sample rolling average at the latest
row) and whose `close` is the latest closing price. -/
theorem get_stock_data_with_cache_spec (stock_code stock_name : String)
    (hist : String → Except Unit (List Row)) (df : List Row)
    (hdf : hist (toSymbol stock_code) = .ok df) :
    (df.length < 250 →
      get_stock_data_with_cache stock_code stock_name none hist = none) ∧
    (250 ≤ df.length →
      ∃ r latest, df.getLast? = some latest ∧
        get_stock_data_with_cache stock_code stock_name none hist = some r ∧
        r.close = latest.close ∧
        r.ma250 = (lastWindow (df.map (·.close)) 250).sum / 250 ∧
        (lastWindow (df.map (·.close)) 250).length = 250) := by
  constructor
  · intro hshort
    simp only [get_stock_data_with_cache, hdf]
    by_cases hemp : df.isEmpty
    · rw [if_pos hemp]
    · rw [if_neg hemp, if_pos hshort]
  · intro hlong
    have hne : df ≠ [] := by
      intro h; rw [h] at hlong; simp at hlong
    have hemp : df.isEmpty = false := by
      simpa [List.isEmpty_iff] using hne
    have hclo : 250 ≤ (df.map (·.close)).length := by
      rwa [List.length_map]
    obtain ⟨hmean, hwlen⟩ := rollingMean_getLast (df.map (·.close)) hclo
    obtain ⟨latest, hlast⟩ : ∃ latest, df.getLast? = some latest :=
      ⟨df.getLast hne, List.getLast?_eq_getLast df hne⟩
    refine ⟨⟨stock_code, stock_name, latest.close,
      (lastWindow (df.map (·.close)) 250).sum / 250, latest.date, df.length⟩,
      latest, hlast, ?_, rfl, rfl, hwlen⟩
    simp only [get_stock_data_with_cache, hdf, hemp, Bool.false_eq_true,
      if_false, if_neg (Nat.not_lt.2 hlong), hmean, hlast]

/-- Witness for C2 at the concrete 250-row series `dfW`. -/
theorem get_stock_data_with_cache_spec_witness :
    ∃ r latest, dfW.getLast? = some latest ∧
      get_stock_data_with_cache "600000" "x" none histW = some r ∧
      r.close = latest.close ∧
      r.ma250 = (lastWindow (dfW.map (·.close)) 250).sum / 250 ∧
      (lastWindow (dfW.map (·.close)) 250).length = 250 :=
  (get_stock_data_with_cache_spec "600000" "x" histW dfW rfl).2
    (by unfold dfW; rw [List.length_replicate])

/-- Helper: membership in the hits of `process_stocks_batch`. -/
theorem mem_process_stocks_batch {fetch : String → String → Option StockData}
    {stocks_list : List (String × String)} {index_name : String} {θ : ℚ}
    {h : Hit} :
    h ∈ process_stocks_batch fetch stocks_list index_name θ ↔
      h.index = index_name ∧ ∃ p ∈ stocks_list,
        check_stock_condition (fetch p.1 p.2) θ = some h.res := by
  simp only [process_stocks_batch, batch_futures, List.filterMap_map,
    List.mem_filterMap, Function.comp]
  constructor
  · rintro ⟨p, hp, hsome⟩
    obtain ⟨r, hr, hEq⟩ := Option.map_eq_some'.1 hsome
    cases hEq
    exact ⟨rfl, p, hp, hr⟩
  · rintro ⟨hidx, p, hp, hr⟩
    refine ⟨p, hp, ?_⟩
    rw [hr, Option.map_some']
    cases h
    simp_all

/-- Helper: `filterMap` keeps exactly the elements on which the function
fires. -/
theorem length_filterMap_eq_length_filter {α β : Type} (f : α → Option β)
    (l : List α) :
    (l.filterMap f).length = (l.filter fun a => (f a).isSome).length := by
  induction l with
  | nil => rfl
  | cons a l ih =>
    by_cases h : (f a).isSome
    · obtain ⟨b, hb⟩ := Option.isSome_iff_exists.1 h
      simp [List.filterMap_cons, List.filter_cons, hb, h, ih]
    · rw [Option.not_isSome_iff_eq_none] at h
      simp [List.filterMap_cons, List.filter_cons, h, ih]

/-- C4: `process_stocks_batch` submits exactly one fetch task per input pair;
its hits are exactly the stocks whose fetched data exists and passes
`check_stock_condition`, each tagged with the index name; every hit
originates from the input list; and each qualifying pair contributes exactly
one hit (so in particular there are no more hits than input pairs). -/
theorem process_stocks_batch_spec (fetch : String → String → Option StockData)
    (stocks_list : List (String × String)) (index_name : String) (θ : ℚ) :
    (batch_futures fetch stocks_list).length = stocks_list.length ∧
    (∀ h ∈ process_stocks_batch fetch stocks_list index_name θ,
      h.index = index_name ∧ ∃ p ∈ stocks_list, ∃ d, fetch p.1 p.2 = some d ∧
        check_stock_condition (some d) θ = some h.res) ∧
    (∀ p ∈ stocks_list, ∀ r, check_stock_condition (fetch p.1 p.2) θ = some r →
      Hit.mk r index_name ∈ process_stocks_batch fetch stocks_list index_name θ) ∧
    (process_stocks_batch fetch stocks_list index_name θ).length =
      (stocks_list.filter fun p =>
        (check_stock_condition (fetch p.1 p.2) θ).isSome).length := by
  refine ⟨List.length_map _ _, ?_, ?_, ?_⟩
  · intro h hmem
    obtain ⟨hidx, p, hp, hr⟩ := mem_process_stocks_batch.1 hmem
    obtain ⟨sd, hsd, -⟩ := check_stock_condition_some hr
    exact ⟨hidx, p, hp, sd, hsd, hsd ▸ hr⟩
  · intro p hp r hr
    exact mem_process_stocks_batch.2 ⟨rfl, p, hp, hr⟩
  · rw [process_stocks_batch, batch_futures, List.filterMap_map,
      length_filterMap_eq_length_filter]
    exact congrArg List.length (List.filter_congr fun p _ => by
      simp [Function.comp, Option.isSome_map'])

/-- Witness for C4: with one qualifying pair, the hit list contains exactly
its tagged match. -/
theorem process_stocks_batch_spec_witness :
    Hit.mk ⟨"600000", "x", 97, 100, "2026-01-01", 250, 3/100, 3⟩ "idx" ∈
      process_stocks_batch fetchW [("600000", "x")] "idx" (6/100) :=
  (process_stocks_batch_spec fetchW [("600000", "x")] "idx" (6/100)).2.2.1
    ("600000", "x") (by simp) _
    (by simp only [fetchW, check_stock_condition]; norm_num)

/-- C5: `get_all_index_stocks` consults up to three provider methods in a
fixed order (the third only for index code 000922) and returns the
constituent list parsed from the first method whose call succeeds with a
non-empty frame; when every consulted method raises or yields nothing, it
returns the empty list.  The function is total, embedding the fact that no
exception escapes to the caller. -/
theorem get_all_index_stocks_spec (index_code : String)
    (m1 m2 m3 : Except Unit Df) :
    (∀ df, methodYields m1 = some df →
      get_all_index_stocks index_code m1 m2 m3 = parse_m1 df) ∧
    (methodYields m1 = none → ∀ df, methodYields m2 = some df →
      get_all_index_stocks index_code m1 m2 m3 = parse_m2 df) ∧
    (methodYields m1 = none → methodYields m2 = none →
      index_code = "000922" → ∀ df, methodYields m3 = some df →
      "成分券代码" ∈ df.cols →
      get_all_index_stocks index_code m1 m2 m3 = parse_m3 df) ∧
    (methodYields m1 = none → methodYields m2 = none →
      (∀ df, methodYields m3 = some df → index_code = "000922" →
        "成分券代码" ∉ df.cols) →
      get_all_index_stocks index_code m1 m2 m3 = []) := by
  have hyields : ∀ m : Except Unit Df, ∀ df, methodYields m = some df →
      m = .ok df ∧ df.isEmpty = false := by
    intro m df hm
    match m with
    | .error e => simp [methodYields] at hm
    | .ok df' =>
      simp only [methodYields] at hm
      split at hm
      · exact absurd hm (by simp)
      · cases hm; simp_all
  have hnone : ∀ m : Except Unit Df, methodYields m = none →
      (∃ e, m = .error e) ∨ ∃ df, m = .ok df ∧ df.isEmpty = true := by
    intro m hm
    match m with
    | .error e => exact Or.inl ⟨e, rfl⟩
    | .ok df' =>
      refine Or.inr ⟨df', rfl, ?_⟩
      simp only [methodYields] at hm
      split at hm
      · assumption
      · exact absurd hm (by simp)
  refine ⟨?_, ?_, ?_, ?_⟩
  · intro df hdf
    obtain ⟨h1, hne⟩ := hyields m1 df hdf
    simp [get_all_index_stocks, h1, hne]
  · intro h1 df hdf
    obtain ⟨h2, hne⟩ := hyields m2 df hdf
    have hfall : get_all_index_stocks index_code m1 m2 m3 =
        method2_then index_code m2 m3 := by
      rcases hnone m1 h1 with ⟨e, he⟩ | ⟨df1, he, hemp⟩
      · simp [get_all_index_stocks, he]
      · simp [get_all_index_stocks, he, hemp]
    rw [hfall, h2]
    simp [method2_then, hne]
  · intro h1 h2 hic df hdf hcol
    obtain ⟨h3, hne⟩ := hyields m3 df hdf
    have hfall : get_all_index_stocks index_code m1 m2 m3 =
        method3_result index_code m3 := by
      have hfall2 : method2_then index_code m2 m3 =
          method3_result index_code m3 := by
        rcases hnone m2 h2 with ⟨e, he⟩ | ⟨df2, he, hemp⟩
        · simp [method2_then, he]
        · simp [method2_then, he, hemp]
      rcases hnone m1 h1 with ⟨e, he⟩ | ⟨df1, he, hemp⟩
      · simp [get_all_index_stocks, he, hfall2]
      · simp [get_all_index_stocks, he, hemp, hfall2]
    rw [hfall, h3]
    simp [method3_result, hic, hne, hcol]
  · intro h1 h2 h3
    have hfall : get_all_index_stocks index_code m1 m2 m3 =
        method3_result index_code m3 := by
      have hfall2 : method2_then index_code m2 m3 =
          method3_result index_code m3 := by
        rcases hnone m2 h2 with ⟨e, he⟩ | ⟨df2, he, hemp⟩
        · simp [method2_then, he]
        · simp [method2_then, he, hemp]
      rcases hnone m1 h1 with ⟨e, he⟩ | ⟨df1, he, hemp⟩
      · simp [get_all_index_stocks, he, hfall2]
      · simp [get_all_index_stocks, he, hemp, hfall2]
    rw [hfall]
    by_cases hic : index_code = "000922"
    · match hm3 : m3 with
      | .error e => simp [method3_result]
      | .ok df =>
        by_cases hemp : df.isEmpty
        · simp [method3_result, hemp]
        · have hno := h3 df (by simp [methodYields, hemp]) hic
          simp [method3_result, hic, hemp, hno]
    · simp [method3_result, hic]

/-- Witness for C5: a successful first method with a one-row frame wins. -/
theorem get_all_index_stocks_spec_witness :
    get_all_index_stocks "000015"
        (.ok ⟨["品种代码"], [["600000"]]⟩) (.error ()) (.error ()) =
      parse_m1 ⟨["品种代码"], [["600000"]]⟩ :=
  (get_all_index_stocks_spec "000015"
      (.ok ⟨["品种代码"], [["600000"]]⟩) (.error ()) (.error ())).1
    ⟨["品种代码"], [["600000"]]⟩ (by simp [methodYields, Df.isEmpty])

/-- C9: `send_wechat` posts the title truncated to its first 32 characters
and the body untruncated, for every title and body; it returns `false`
(never raising: the function is total) when the key is missing, the HTTP
status is not 200, the relay reports a non-zero code, or the request raises,
and `true` exactly on a 200 response whose JSON `code` is 0. -/
theorem send_wechat_spec (key title content : String)
    (resp : Option HttpResp) :
    (key = "" → send_wechat key title content resp = (none, false)) ∧
    (key ≠ "" →
      (send_wechat key title content resp).1 =
        some ⟨title.take 32, content, "wechat", "markdown"⟩ ∧
      ((send_wechat key title content resp).2 = true ↔
        ∃ r, resp = some r ∧ r.status = 200 ∧ r.jsonCode = some 0)) := by
  constructor
  · intro hk
    simp [send_wechat, hk]
  · intro hk
    match resp with
    | none =>
      refine ⟨by simp [send_wechat, hk], ?_⟩
      simp [send_wechat, hk]
    | some r =>
      constructor
      · by_cases hs : r.status = 200 <;> by_cases hc : r.jsonCode = some 0 <;>
          simp [send_wechat, hk, hs, hc]
      · by_cases hs : r.status = 200 <;> by_cases hc : r.jsonCode = some 0 <;>
          simp [send_wechat, hk, hs, hc]

/-- Witness for C9: a 33-character title is cut to its first 32 characters
while the body survives whole, and a failed request yields `false`. -/
theorem send_wechat_spec_witness :
    (send_wechat "k" "abcdefghijklmnopqrstuvwxyz0123456" "body" none).1 =
      some ⟨"abcdefghijklmnopqrstuvwxyz0123456".take 32, "body", "wechat",
        "markdown"⟩ ∧
    ((send_wechat "k" "abcdefghijklmnopqrstuvwxyz0123456" "body" none).2 =
        true ↔
      ∃ r, (none : Option HttpResp) = some r ∧ r.status = 200 ∧
        r.jsonCode = some 0) :=
  (send_wechat_spec "k" "abcdefghijklmnopqrstuvwxyz0123456" "body" none).2
    (by decide)

/-- Helper: a left factor of a non-empty string append keeps the append
non-empty. -/
theorem append_ne_empty_left (s t : String) (h : s ≠ "") : s ++ t ≠ "" := by
  intro he
  have hl := congrArg String.length he
  rw [String.length_append] at hl
  have hz : ("" : String).length = 0 := rfl
  have hs : s.length = 0 := by omega
  cases s with
  | mk data =>
    simp [String.length] at hs
    exact h (by simp [hs])

/-- Helper: the alert title is never the empty string. -/
theorem notif_title_ne_empty (hits : List Hit) : notif_title hits ≠ "" := by
  unfold notif_title
  exact append_ne_empty_left _ _ (append_ne_empty_left _ _ (by decide))

/-- Helper: the alert body is never the empty string. -/
theorem notif_content_ne_empty (now : String) (hits : List Hit) (total : ℕ) :
    notif_content now hits total ≠ "" := by
  unfold notif_content
  repeat apply append_ne_empty_left
  decide

/-- Helper: the hits a full run accumulates (definitional reading of
`main_run`). -/
theorem main_run_all_hits (env : Env) :
    (main_run env).all_hits =
      ((index_config.map (run_index env)).map fun b => b.2.1).flatten := rfl

/-- Helper: the notifications of a full run (definitional reading of
`main_run`). -/
theorem main_run_notifications (env : Env) :
    (main_run env).notifications =
      main_notifications env (main_run env).all_hits
        (main_run env).total_stocks_checked := rfl

/-- Helper: any hit of one index iteration passed the 6% check and carries
the index name of that iteration. -/
theorem mem_run_index_hits {env : Env} {cfg : String × String} {h : Hit}
    (hmem : h ∈ (run_index env cfg).2.1) :
    h.index = cfg.1 ∧ ∃ osd, check_stock_condition osd (6/100) = some h.res := by
  simp only [run_index] at hmem
  split at hmem
  · simp at hmem
  · obtain ⟨hidx, p, hp, hc⟩ := mem_process_stocks_batch.1 hmem
    exact ⟨hidx, _, hc⟩

/-- Helper: with hits, the notification phase sends the generated alert and
then the summary message. -/
theorem main_notifications_of_ne (env : Env) (hits : List Hit) (total : ℕ)
    (hne : hits ≠ []) :
    main_notifications env hits total =
      [(notif_title hits, notif_content env.now hits total),
       ("📊 监控汇总报告", summary_content env.now hits total)] := by
  have hemp : hits.isEmpty = false := by
    simp [List.isEmpty_iff, hne]
  simp only [main_notifications, generate_notification_content, hemp,
    Bool.false_eq_true, if_false]
  rw [if_neg (by simp [not_or, notif_title_ne_empty, notif_content_ne_empty])]

/-- C3: the band limit is one constant: the default threshold of
`check_stock_condition` is 6/100, the index loop of `main` hands
`process_stocks_batch` the
same `threshold=0.06` for every index it monitors, and consequently every
hit of a full run lies in the 6% band. -/
theorem threshold_constant_band :
    (∀ osd : Option StockData,
      check_stock_condition osd = check_stock_condition osd (6/100)) ∧
    (∀ env : Env, ∀ cfg ∈ index_config, (run_index env cfg).2.1 =
      process_stocks_batch (fetchStockData env)
        (get_all_index_stocks cfg.2 (env.m1 cfg.2) (env.m2 cfg.2)
          (env.m3 cfg.2)) cfg.1 (6/100)) ∧
    (∀ env : Env, ∀ h ∈ (main_run env).all_hits,
      0 < h.res.deviation ∧ h.res.deviation ≤ 6/100) := by
  refine ⟨fun osd => rfl, ?_, ?_⟩
  · intro env cfg _
    simp only [run_index]
    split
    · rename_i hemp
      rw [List.isEmpty_iff] at hemp
      rw [hemp]
      rfl
    · rfl
  · intro env h hmem
    rw [main_run_all_hits] at hmem
    obtain ⟨l, hl, hmem⟩ := List.mem_flatten.1 hmem
    obtain ⟨b, hb, rfl⟩ := List.mem_map.1 hl
    obtain ⟨cfg, -, rfl⟩ := List.mem_map.1 hb
    obtain ⟨-, osd, hc⟩ := mem_run_index_hits hmem
    obtain ⟨sd, -, -, -, hpos, hle, -⟩ := check_stock_condition_some hc
    exact ⟨hpos, hle⟩

/-- C6: with at least one match, the notification phase pushes exactly the
alert produced by `generate_notification_content` from the full list of
matches, followed by the summary message. -/
theorem main_alert_notifications (env : Env)
    (hne : (main_run env).all_hits ≠ []) :
    generate_notification_content env.now (main_run env).all_hits
        (main_run env).total_stocks_checked =
      some (notif_title (main_run env).all_hits,
        notif_content env.now (main_run env).all_hits
          (main_run env).total_stocks_checked) ∧
    (main_run env).notifications =
      [(notif_title (main_run env).all_hits,
        notif_content env.now (main_run env).all_hits
          (main_run env).total_stocks_checked),
       ("📊 监控汇总报告",
        summary_content env.now (main_run env).all_hits
          (main_run env).total_stocks_checked)] := by
  constructor
  · rw [generate_notification_content,
      if_neg (by simp [List.isEmpty_iff, hne])]
  · rw [main_run_notifications]
    exact main_notifications_of_ne env _ _ hne

/-- C7: even with no match, `main` still sends exactly one notification (the
"no alert" report); some message is pushed on every complete run. -/
theorem main_always_notifies (env : Env) :
    ((main_run env).all_hits = [] →
      (main_run env).notifications =
        [("📊 红利指数监控报告",
          no_alert_content env.now env.today
            (main_run env).total_stocks_checked)]) ∧
    (main_run env).notifications ≠ [] := by
  constructor
  · intro hempty
    rw [main_run_notifications, main_notifications,
      if_pos (by simp [List.isEmpty_iff, hempty])]
  · by_cases hempty : (main_run env).all_hits = []
    · rw [main_run_notifications, main_notifications,
        if_pos (by simp [List.isEmpty_iff, hempty])]
      simp
    · rw [main_run_notifications, main_notifications_of_ne env _ _ hempty]
      simp

/-- C8: the pipeline order of a full run: the trace is the per-index blocks
in `index_config` order, then the results-file write, then only
notifications; within each index block the constituent fetch comes first and
everything after it is a stock fetch of that same index; three indices are
configured. -/
theorem pipeline_order (env : Env) :
    ∃ notif,
      (main_run env).trace =
        ((index_config.map (run_index env)).map fun b => b.1).flatten ++
          [Event.writeResults] ++ notif ∧
      (∀ e ∈ notif, ∃ t c, e = Event.notify t c) ∧
      (∀ e ∈ ((index_config.map (run_index env)).map fun b => b.1).flatten,
        (∀ t c, e ≠ Event.notify t c) ∧ e ≠ Event.writeResults) ∧
      (∀ cfg ∈ index_config, ∃ rest,
        (run_index env cfg).1 = Event.getCons cfg.1 :: rest ∧
        ∀ e ∈ rest, ∃ code, e = Event.fetchStock cfg.1 code) ∧
      index_config.length = 3 := by
  refine ⟨(main_run env).notifications.map fun p => Event.notify p.1 p.2,
    ?_, ?_, ?_, ?_, rfl⟩
  · rfl
  · intro e he
    obtain ⟨p, -, rfl⟩ := List.mem_map.1 he
    exact ⟨p.1, p.2, rfl⟩
  · intro e he
    obtain ⟨l, hl, he⟩ := List.mem_flatten.1 he
    obtain ⟨b, hb, rfl⟩ := List.mem_map.1 hl
    obtain ⟨cfg, -, rfl⟩ := List.mem_map.1 hb
    have hshape : e = Event.getCons cfg.1 ∨
        ∃ code, e = Event.fetchStock cfg.1 code := by
      simp only [run_index] at he
      split at he
      · simp at he
        exact Or.inl he
      · rcases List.mem_cons.1 he with h | h
        · exact Or.inl h
        · obtain ⟨p, -, rfl⟩ := List.mem_map.1 h
          exact Or.inr ⟨p.1, rfl⟩
    rcases hshape with rfl | ⟨code, rfl⟩
    · exact ⟨fun t c => by simp, by simp⟩
    · exact ⟨fun t c => by simp, by simp⟩
  · intro cfg _
    simp only [run_index]
    split
    · exact ⟨[], rfl, by simp⟩
    · refine ⟨_, rfl, ?_⟩
      intro e he
      obtain ⟨p, -, rfl⟩ := List.mem_map.1 he
      exact ⟨p.1, rfl⟩

/-- Helper: that hit is indeed among the hits of a full run on `envHit`. -/
theorem envHit_hit_mem : hW ∈ (main_run envHit).all_hits := by
  rw [main_run_all_hits]
  apply List.mem_flatten.2
  refine ⟨(run_index envHit ("中证红利", "000922")).2.1,
    List.mem_map_of_mem _ (List.mem_map_of_mem _ (by simp [index_config])),
    ?_⟩
  have hblock : (run_index envHit ("中证红利", "000922")).2.1 =
      process_stocks_batch (fetchStockData envHit) [("600000", "")]
        "中证红利" (6/100) := rfl
  rw [hblock]
  apply mem_process_stocks_batch.2
  refine ⟨rfl, ("600000", ""), by simp, ?_⟩
  have hfetch : fetchStockData envHit "600000" "" =
      some ⟨"600000", "x", 97, 100, "2026-01-01", 250⟩ := rfl
  rw [hfetch]
  simp only [check_stock_condition, MatchResult.mk.injEq, hW]
  norm_num

/-- Witness for C3: the concrete hit of `envHit` lies in the 6% band. -/
theorem threshold_constant_band_witness :
    0 < hW.res.deviation ∧ hW.res.deviation ≤ 6/100 :=
  threshold_constant_band.2.2 envHit hW envHit_hit_mem

/-- Witness for C6 on the concrete environment `envHit`. -/
theorem main_alert_notifications_witness :
    generate_notification_content envHit.now (main_run envHit).all_hits
        (main_run envHit).total_stocks_checked =
      some (notif_title (main_run envHit).all_hits,
        notif_content envHit.now (main_run envHit).all_hits
          (main_run envHit).total_stocks_checked) ∧
    (main_run envHit).notifications =
      [(notif_title (main_run envHit).all_hits,
        notif_content envHit.now (main_run envHit).all_hits
          (main_run envHit).total_stocks_checked),
       ("📊 监控汇总报告",
        summary_content envHit.now (main_run envHit).all_hits
          (main_run envHit).total_stocks_checked)] :=
  main_alert_notifications envHit (List.ne_nil_of_mem envHit_hit_mem)

/-- Witness for C7: the hit-free run on `envQuiet` still sends exactly the
"no alert" report. -/
theorem main_always_notifies_witness :
    (main_run envQuiet).notifications =
      [("📊 红利指数监控报告",
        no_alert_content envQuiet.now envQuiet.today
          (main_run envQuiet).total_stocks_checked)] :=
  (main_always_notifies envQuiet).1 rfl

/-- Witness for C8: on `envQuiet`, the first index block starts with its
constituent fetch and contains nothing but stock fetches after it. -/
theorem pipeline_order_witness :
    ∃ rest, (run_index envQuiet ("中证红利", "000922")).1 =
        Event.getCons "中证红利" :: rest ∧
      ∀ e ∈ rest, ∃ code, e = Event.fetchStock "中证红利" code := by
  obtain ⟨notif, -, -, -, h4, -⟩ := pipeline_order envQuiet
  exact h4 ("中证红利", "000922") (by simp [index_config])
